import Mathlib

/-!
Top-Category-Per-City Aggregator: a shallow embedding.

This file embeds the aggregation pipeline of `src/dashboard/dashboard.py`
(lines 83-97 and 115-123) as executable Lean definitions over lists of
records, and proves the specified properties of the pipeline.

Tables are lists of records; identifiers and labels (order ids, product ids,
customer ids, city names, category names) are modelled as `Nat`.  A pandas
`NaN` entry in a column is modelled as `none` of an `Option` type.

Pandas semantics embedded here:
* `DataFrame.merge(right, on=k, how='left')`: every left row is paired with
  every matching right row; a left row with no match is kept once, with the
  right-hand columns null (`leftMerge` below).  A null merge key on the left
  matches nothing, faithful to the repository's data where the right-hand
  key columns (`product_id`, `order_id`, `customer_id`,
  `product_category_name` in the translation table) are never null.
* `groupby(ks)[c].count()`: group keys containing a null are dropped
  (pandas `dropna=True` default); `count` counts non-null entries of column
  `c` in each group, and the counted column `order_id` originates from
  `order_items_dataset` rows, hence is never null, so the count is the
  group's row count.  Group keys are emitted in ascending sorted order
  (pandas `sort=True` default).
* `sort_values`: modelled by `List.insertionSort` with the corresponding
  comparison relation (a deterministic sort; pandas' default quicksort is
  unstable, and no claim below depends on the order of ties).
* `groupby('customer_city')['total_orders'].idxmax()` + `.loc[...]`: for
  each city (cities in ascending order, i.e. order of first appearance in
  the city-sorted table), the first row of that city's group attaining the
  maximum `total_orders` (`firstMaxRow` below).
* `Series.head(10)` / `isin`: `List.take 10` / membership filter.
* `Series.nunique()`: number of distinct non-null values.
-/

namespace Dashboard

/-- A row of `order_items_dataset.csv`: one line item of an order. -/
structure OrderItem where
  order_id : Nat
  product_id : Nat
deriving DecidableEq

/-- A row of `products_dataset.csv`; `product_category_name` may be null. -/
structure Product where
  product_id : Nat
  product_category_name : Option Nat
deriving DecidableEq

/-- A row of `product_category_name_translation.csv`. -/
structure Translation where
  product_category_name : Nat
  product_category_name_english : Nat
deriving DecidableEq

/-- A row of (filtered) `orders_dataset.csv`, restricted to the two columns
the pipeline uses (`filtered_orders[['order_id', 'customer_id']]`). -/
structure Order where
  order_id : Nat
  customer_id : Nat
deriving DecidableEq

/-- A row of `customers_dataset.csv`, restricted to
`customers_df[['customer_id', 'customer_city']]`. -/
structure Customer where
  customer_id : Nat
  customer_city : Nat
deriving DecidableEq

/-- A row of `merged_df` after the column projection on line 87:
`merged_df[['order_id', 'customer_city', 'product_category_name_english']]`. -/
structure MergedRow where
  order_id : Nat
  customer_city : Option Nat
  product_category_name_english : Option Nat
deriving DecidableEq

/-- A row of the `top_category_per_city` table (lines 89-93): city, winning
category label (the dataframe column may in principle hold nulls, hence
`Option`), and the `total_orders` count. -/
structure CityCatRow where
  customer_city : Nat
  product_category_name_english : Option Nat
  total_orders : Nat
deriving DecidableEq

/-- Pandas left merge: each left row is paired with each matching right row,
or kept once with a null right part when nothing matches. -/
def leftMerge {α β : Type} (left : List α) (right : List β)
    (m : α → β → Bool) : List (α × Option β) :=
  left.flatMap fun a =>
    match right.filter (m a) with
    | [] => [(a, none)]
    | ms => ms.map fun b => (a, some b)

/-- The merge chain of lines 83-87: order items ⟕ products ⟕ filtered
orders ⟕ customers ⟕ category translations, projected to
`(order_id, customer_city, product_category_name_english)`. -/
def merged_df (orders_items : List OrderItem) (products : List Product)
    (filtered_orders : List Order) (customers : List Customer)
    (translation : List Translation) : List MergedRow :=
  let m1 := leftMerge orders_items products
    (fun i p => i.product_id == p.product_id)
  let m2 := leftMerge m1 filtered_orders
    (fun r o => r.1.order_id == o.order_id)
  let m3 := leftMerge m2 customers
    (fun r c =>
      match r.2 with
      | some o => o.customer_id == c.customer_id
      | none => false)
  let m4 := leftMerge m3 translation
    (fun r t =>
      match r.1.1.2.bind Product.product_category_name with
      | some n => n == t.product_category_name
      | none => false)
  m4.map fun r =>
    { order_id := r.1.1.1.1.order_id
      customer_city := r.1.2.map Customer.customer_city
      product_category_name_english :=
        r.2.map Translation.product_category_name_english }

/-- The `(customer_city, product_category_name_english)` pairs observed in
the merged rows, nulls dropped: the group keys fed to the `groupby` on
line 89 (pandas drops groups whose key contains a null). -/
def observedPairs (rows : List MergedRow) : List (Nat × Nat) :=
  rows.filterMap fun r =>
    r.customer_city.bind fun c =>
      r.product_category_name_english.map fun e => (c, e)

/-- The group count of lines 89-90, `groupby(['customer_city',
'product_category_name_english'])
['order_id'].count()` for one group: the number of merged rows carrying
that (non-null) city and category.  `order_id` is never null in
`merged_df`, so pandas `count` is the row count of the group. -/
def countPair (rows : List MergedRow) (c e : Nat) : Nat :=
  (rows.filter fun r =>
    r.customer_city == some c && r.product_category_name_english == some e).length

/-- Helper for `dedupFirst`: drop the elements already seen, keep the first
occurrence of each new element. -/
def dedupFirstAux {α : Type} [DecidableEq α] (seen : List α) :
    List α → List α
  | [] => []
  | a :: l =>
    if a ∈ seen then dedupFirstAux seen l
    else a :: dedupFirstAux (a :: seen) l

/-- Keep the first occurrence of each element, dropping later duplicates. -/
def dedupFirst {α : Type} [DecidableEq α] (l : List α) : List α :=
  dedupFirstAux [] l

/-- Ascending lexicographic order on group keys (pandas `groupby` emits its
keys sorted ascending). -/
def pairRel (a b : Nat × Nat) : Prop :=
  a.1 < b.1 ∨ (a.1 = b.1 ∧ a.2 ≤ b.2)

instance : DecidableRel pairRel := fun a b =>
  inferInstanceAs (Decidable (a.1 < b.1 ∨ (a.1 = b.1 ∧ a.2 ≤ b.2)))

instance : IsTrans (Nat × Nat) pairRel :=
  ⟨by intro a b c hab hbc; unfold pairRel at *; omega⟩

instance : IsTotal (Nat × Nat) pairRel :=
  ⟨by intro a b; unfold pairRel; omega⟩

/-- The distinct group keys, in ascending order. -/
def groupKeys (rows : List MergedRow) : List (Nat × Nat) :=
  List.insertionSort pairRel (dedupFirst (observedPairs rows))

/-- The grouped-and-counted table produced by lines 89-90: one row per
observed (city, category) pair with its count, named `total_orders`. -/
def groupedTable (rows : List MergedRow) : List CityCatRow :=
  (groupKeys rows).map fun p =>
    { customer_city := p.1
      product_category_name_english := some p.2
      total_orders := countPair rows p.1 p.2 }

/-- The comparison of line 91: `sort_values(by=['customer_city',
'total_orders'], ascending=[True, False])`. -/
def cityCountRel (a b : CityCatRow) : Prop :=
  a.customer_city < b.customer_city ∨
    (a.customer_city = b.customer_city ∧ b.total_orders ≤ a.total_orders)

instance : DecidableRel cityCountRel := fun a b =>
  inferInstanceAs (Decidable (a.customer_city < b.customer_city ∨
    (a.customer_city = b.customer_city ∧ b.total_orders ≤ a.total_orders)))

instance : IsTrans CityCatRow cityCountRel :=
  ⟨by intro a b c hab hbc; unfold cityCountRel at *; omega⟩

instance : IsTotal CityCatRow cityCountRel :=
  ⟨by intro a b; unfold cityCountRel; omega⟩

/-- The comparison of line 93: `sort_values(by='total_orders',
ascending=False)`. -/
def countDescRel (a b : CityCatRow) : Prop :=
  b.total_orders ≤ a.total_orders

instance : DecidableRel countDescRel := fun a b =>
  inferInstanceAs (Decidable (b.total_orders ≤ a.total_orders))

instance : IsTrans CityCatRow countDescRel :=
  ⟨by intro a b c hab hbc; unfold countDescRel at *; omega⟩

instance : IsTotal CityCatRow countDescRel :=
  ⟨by intro a b; unfold countDescRel; omega⟩

/-- The grouped table sorted by (city ascending, total_orders descending):
the state of `top_category_per_city` after line 91. -/
def sortedGroupTable (rows : List MergedRow) : List CityCatRow :=
  List.insertionSort cityCountRel (groupedTable rows)

/-- The rows of the table belonging to one city, in table order. -/
def cityRows (l : List CityCatRow) (c : Nat) : List CityCatRow :=
  l.filter fun r => r.customer_city == c

/-- Helper for `firstMaxRow`: the first row attaining the maximum
`total_orders` among `b :: l` (a later row replaces the current best only
when strictly greater). -/
def firstMaxAux (b : CityCatRow) : List CityCatRow → CityCatRow
  | [] => b
  | r :: rs => if b.total_orders < r.total_orders then firstMaxAux r rs
               else firstMaxAux b rs

/-- Pandas `idxmax` over one group: the first row of the list attaining the
maximum `total_orders`, or `none` for an empty list. -/
def firstMaxRow : List CityCatRow → Option CityCatRow
  | [] => none
  | r :: rs => some (firstMaxAux r rs)

/-- Line 92: per city (cities in their order of first appearance in the
sorted table, which is ascending), select the `idxmax` row of that city's
group. -/
def selectedRows (rows : List MergedRow) : List CityCatRow :=
  (dedupFirst ((sortedGroupTable rows).map CityCatRow.customer_city)).filterMap
    fun c => firstMaxRow (cityRows (sortedGroupTable rows) c)

/-- The aggregation applied to already-merged rows: group and count
(lines 89-90), sort by (city asc, count desc) (line 91), per-city `idxmax`
selection (line 92), sort by count descending (line 93). -/
def aggregateRows (rows : List MergedRow) : List CityCatRow :=
  List.insertionSort countDescRel (selectedRows rows)

/-- The `top_category_per_city` table as of line 93: one winning row per
city, sorted by `total_orders` descending. -/
def top_category_per_city (orders_items : List OrderItem)
    (products : List Product) (filtered_orders : List Order)
    (customers : List Customer) (translation : List Translation) :
    List CityCatRow :=
  aggregateRows (merged_df orders_items products filtered_orders customers translation)

/-- Line 96: the first 10 cities of the table. -/
def top_10_cities (l : List CityCatRow) : List Nat :=
  (l.map CityCatRow.customer_city).take 10

/-- Line 97: the rows whose city is among the first 10 cities. -/
def top_10_data_of (l : List CityCatRow) : List CityCatRow :=
  l.filter fun r => (top_10_cities l).contains r.customer_city

/-- The aggregator's final output (`top_10_data`, line 97). -/
def top_10_data (orders_items : List OrderItem) (products : List Product)
    (filtered_orders : List Order) (customers : List Customer)
    (translation : List Translation) : List CityCatRow :=
  top_10_data_of (top_category_per_city orders_items products filtered_orders
    customers translation)

/-- Line 66: `filtered_orders.merge(customers_df, on='customer_id',
how='left')`. -/
def orders_with_city (filtered_orders : List Order)
    (customers : List Customer) : List (Order × Option Customer) :=
  leftMerge filtered_orders customers
    (fun o c => o.customer_id == c.customer_id)

/-- Line 115: `total_orders = len(filtered_orders)`. -/
def total_orders_metric (filtered_orders : List Order) : Nat :=
  filtered_orders.length

/-- Line 119: `orders_with_city['customer_city'].nunique()` — the number of
distinct non-null cities attached to the filtered orders. -/
def total_cities (filtered_orders : List Order)
    (customers : List Customer) : Nat :=
  (dedupFirst ((orders_with_city filtered_orders customers).filterMap
    fun r => r.2.map Customer.customer_city)).length

/-- Line 123: `avg_orders_per_city = total_orders / total_cities if
total_cities > 0 else 0` (Python true division, embedded over `ℚ`). -/
def avg_orders_per_city (filtered_orders : List Order)
    (customers : List Customer) : ℚ :=
  if total_cities filtered_orders customers > 0 then
    (total_orders_metric filtered_orders : ℚ) /
      (total_cities filtered_orders customers : ℚ)
  else 0

/-- Direct per-item city lookup: the city of the (unique) customer of the
(unique) filtered order carrying the item, when all lookups succeed. -/
def itemCity (filtered_orders : List Order) (customers : List Customer)
    (i : OrderItem) : Option Nat :=
  ((filtered_orders.filter fun o => i.order_id == o.order_id).head?).bind
    fun o =>
      ((customers.filter fun c => o.customer_id == c.customer_id).head?).map
        Customer.customer_city

/-- Direct per-item category lookup: the English label of the category of
the (unique) product of the item, when all lookups succeed. -/
def itemCategory (products : List Product) (translation : List Translation)
    (i : OrderItem) : Option Nat :=
  (((products.filter fun p => i.product_id == p.product_id).head?).bind
    Product.product_category_name).bind fun n =>
      ((translation.filter fun t => n == t.product_category_name).head?).map
        Translation.product_category_name_english

/-! Concrete example inputs

The spec's worked example: line items {(o1,p1), (o1,p2), (o2,p1)}, both
products in category 10 (translated to 20, "toys"), both orders o1, o2 of
customer 1 living in city 30 ("springfield"). -/

def exOrderItems : List OrderItem := [⟨1, 1⟩, ⟨1, 2⟩, ⟨2, 1⟩]

def exProducts : List Product := [⟨1, some 10⟩, ⟨2, some 10⟩]

def exTranslation : List Translation := [⟨10, 20⟩]

def exFilteredOrders : List Order := [⟨1, 1⟩, ⟨2, 1⟩]

def exCustomers : List Customer := [⟨1, 30⟩]

/-- A single line item whose product exists but has a null category, so the
category joins cannot resolve, while the city join resolves to city 30. -/
def exNullCatItems : List OrderItem := [⟨1, 1⟩]

/-- The product of `exNullCatItems` with a null `product_category_name`. -/
def exNullCatProducts : List Product := [⟨1, none⟩]

/-- A product with a category code (5) absent from `exTranslation`, so the
translation join fails for every line item of this product. -/
def exUntranslatedProducts : List Product := [⟨1, some 5⟩]

/-- A line item whose `order_id` (9) is absent from `exFilteredOrders`. -/
def exUnfilteredItem : OrderItem := ⟨9, 1⟩

/-- Two line items: item 1 in city 30 with an untranslatable category (5),
item 2 in city 31 with category 10, translatable to 20. -/
def ex8Items : List OrderItem := [⟨1, 1⟩, ⟨2, 2⟩]

def ex8Products : List Product := [⟨1, some 5⟩, ⟨2, some 10⟩]

def ex8Orders : List Order := [⟨1, 1⟩, ⟨2, 2⟩]

def ex8Customers : List Customer := [⟨1, 30⟩, ⟨2, 31⟩]

/-! Generic lemmas -/

theorem mem_dedupFirstAux {α : Type} [DecidableEq α] (l : List α) :
    ∀ (seen : List α) (x : α),
      x ∈ dedupFirstAux seen l ↔ x ∈ l ∧ x ∉ seen := by
  induction l with
  | nil => intro seen x; simp [dedupFirstAux]
  | cons a l ih =>
    intro seen x
    rw [dedupFirstAux]
    split
    · rw [ih seen x]
      constructor
      · exact fun ⟨h1, h2⟩ => ⟨List.mem_cons_of_mem a h1, h2⟩
      · rintro ⟨h1, h2⟩
        rcases List.mem_cons.mp h1 with rfl | h1
        · exact absurd (by assumption) h2
        · exact ⟨h1, h2⟩
    · rw [List.mem_cons, ih (a :: seen) x]
      constructor
      · rintro (rfl | ⟨h1, h2⟩)
        · exact ⟨List.mem_cons_self _ _, by assumption⟩
        · exact ⟨List.mem_cons_of_mem _ h1,
            fun hx => h2 (List.mem_cons_of_mem _ hx)⟩
      · rintro ⟨h1, h2⟩
        by_cases hxa : x = a
        · exact Or.inl hxa
        · rcases List.mem_cons.mp h1 with h | h
          · exact absurd h hxa
          · refine Or.inr ⟨h, fun hx => ?_⟩
            rcases List.mem_cons.mp hx with h2' | h2'
            · exact hxa h2'
            · exact h2 h2'

theorem mem_dedupFirst {α : Type} [DecidableEq α] (l : List α) (x : α) :
    x ∈ dedupFirst l ↔ x ∈ l := by
  rw [dedupFirst, mem_dedupFirstAux]
  simp

theorem nodup_dedupFirstAux {α : Type} [DecidableEq α] (l : List α) :
    ∀ seen : List α, (dedupFirstAux seen l).Nodup := by
  induction l with
  | nil => intro seen; simp [dedupFirstAux]
  | cons a l ih =>
    intro seen
    rw [dedupFirstAux]
    split
    · exact ih seen
    · refine List.nodup_cons.mpr ⟨fun hmem => ?_, ih (a :: seen)⟩
      exact ((mem_dedupFirstAux l (a :: seen) a).mp hmem).2
        (List.mem_cons_self a seen)

theorem nodup_dedupFirst {α : Type} [DecidableEq α] (l : List α) :
    (dedupFirst l).Nodup :=
  nodup_dedupFirstAux l []

theorem firstMaxAux_mem (l : List CityCatRow) :
    ∀ b, firstMaxAux b l = b ∨ firstMaxAux b l ∈ l := by
  induction l with
  | nil => intro b; left; rfl
  | cons r rs ih =>
    intro b
    rw [firstMaxAux]
    split
    · rcases ih r with h | h
      · right; rw [h]; exact List.mem_cons_self r rs
      · right; exact List.mem_cons_of_mem r h
    · rcases ih b with h | h
      · left; exact h
      · right; exact List.mem_cons_of_mem r h

theorem le_firstMaxAux (l : List CityCatRow) :
    ∀ b, b.total_orders ≤ (firstMaxAux b l).total_orders := by
  induction l with
  | nil => intro b; exact Nat.le_refl _
  | cons r rs ih =>
    intro b
    rw [firstMaxAux]
    split
    · exact Nat.le_trans (Nat.le_of_lt (by assumption)) (ih r)
    · exact ih b

theorem firstMaxAux_max (l : List CityCatRow) :
    ∀ b x, x ∈ l → x.total_orders ≤ (firstMaxAux b l).total_orders := by
  induction l with
  | nil => intro b x hx; cases hx
  | cons r rs ih =>
    intro b x hx
    rw [firstMaxAux]
    rcases List.mem_cons.mp hx with hx | hx
    · subst hx
      split
      · exact le_firstMaxAux rs x
      · exact Nat.le_trans (Nat.le_of_not_lt (by assumption)) (le_firstMaxAux rs b)
    · split
      · exact ih r x hx
      · exact ih b x hx

theorem firstMaxAux_of_forall_le (l : List CityCatRow) :
    ∀ b, (∀ x ∈ l, x.total_orders ≤ b.total_orders) → firstMaxAux b l = b := by
  induction l with
  | nil => intro b _; rfl
  | cons r rs ih =>
    intro b hb
    rw [firstMaxAux]
    rw [if_neg (Nat.not_lt.mpr (hb r (List.mem_cons_self r rs)))]
    exact ih b fun x hx => hb x (List.mem_cons_of_mem r hx)

theorem firstMaxRow_mem {l : List CityCatRow} {r : CityCatRow}
    (h : firstMaxRow l = some r) : r ∈ l := by
  cases l with
  | nil => cases h
  | cons a as =>
    rw [firstMaxRow] at h
    rcases firstMaxAux_mem as a with hm | hm
    · rw [hm] at h
      exact (Option.some_inj.mp h) ▸ List.mem_cons_self a as
    · exact (Option.some_inj.mp h) ▸ List.mem_cons_of_mem a hm

theorem firstMaxRow_max {l : List CityCatRow} {r : CityCatRow}
    (h : firstMaxRow l = some r) :
    ∀ x ∈ l, x.total_orders ≤ r.total_orders := by
  cases l with
  | nil => cases h
  | cons a as =>
    rw [firstMaxRow] at h
    intro x hx
    rcases List.mem_cons.mp hx with hx | hx
    · exact (Option.some_inj.mp h) ▸ (hx ▸ le_firstMaxAux as a)
    · exact (Option.some_inj.mp h) ▸ firstMaxAux_max as a x hx

theorem firstMaxRow_eq_head {l : List CityCatRow}
    (h : l.Pairwise fun a b => b.total_orders ≤ a.total_orders) :
    firstMaxRow l = l.head? := by
  cases l with
  | nil => rfl
  | cons a as =>
    rw [firstMaxRow, List.head?_cons, Option.some_inj]
    exact firstMaxAux_of_forall_le as a (List.pairwise_cons.mp h).1

/-! Pipeline characterization lemmas -/

theorem mem_observedPairs (rows : List MergedRow) (c e : Nat) :
    (c, e) ∈ observedPairs rows ↔
      ∃ r ∈ rows, r.customer_city = some c ∧
        r.product_category_name_english = some e := by
  simp only [observedPairs, List.mem_filterMap, Option.bind_eq_some,
    Option.map_eq_some', Prod.mk.injEq]
  constructor
  · rintro ⟨r, hr, c2, hc2, e2, he2, hce⟩
    exact ⟨r, hr, hce.1 ▸ hc2, hce.2 ▸ he2⟩
  · rintro ⟨r, hr, hc, he⟩
    exact ⟨r, hr, c, hc, e, he, rfl, rfl⟩

theorem countPair_pos (rows : List MergedRow) (c e : Nat) :
    0 < countPair rows c e ↔ (c, e) ∈ observedPairs rows := by
  rw [countPair, List.length_pos_iff_exists_mem, mem_observedPairs]
  simp only [List.mem_filter, Bool.and_eq_true, beq_iff_eq]

theorem mem_groupKeys {rows : List MergedRow} {p : Nat × Nat} :
    p ∈ groupKeys rows ↔ p ∈ observedPairs rows := by
  rw [groupKeys, List.mem_insertionSort, mem_dedupFirst]

theorem mem_groupedTable {rows : List MergedRow} {r : CityCatRow} :
    r ∈ groupedTable rows ↔ ∃ c e, (c, e) ∈ observedPairs rows ∧
      r = ⟨c, some e, countPair rows c e⟩ := by
  rw [groupedTable, List.mem_map]
  constructor
  · rintro ⟨p, hp, rfl⟩
    exact ⟨p.1, p.2, mem_groupKeys.mp hp, rfl⟩
  · rintro ⟨c, e, hce, rfl⟩
    exact ⟨(c, e), mem_groupKeys.mpr hce, rfl⟩

theorem mem_sortedGroupTable {rows : List MergedRow} {r : CityCatRow} :
    r ∈ sortedGroupTable rows ↔ r ∈ groupedTable rows := by
  rw [sortedGroupTable, List.mem_insertionSort]

theorem mem_cityRows {l : List CityCatRow} {c : Nat} {r : CityCatRow} :
    r ∈ cityRows l c ↔ r ∈ l ∧ r.customer_city = c := by
  simp [cityRows, List.mem_filter]

theorem exists_city_of_mem_aggregateRows {rows : List MergedRow}
    {r : CityCatRow} (h : r ∈ aggregateRows rows) :
    ∃ c, firstMaxRow (cityRows (sortedGroupTable rows) c) = some r := by
  rw [aggregateRows, List.mem_insertionSort, selectedRows, List.mem_filterMap] at h
  obtain ⟨c, _, hc⟩ := h
  exact ⟨c, hc⟩

theorem mem_groupedTable_of_mem_aggregateRows {rows : List MergedRow}
    {r : CityCatRow} (h : r ∈ aggregateRows rows) : r ∈ groupedTable rows := by
  obtain ⟨c, hc⟩ := exists_city_of_mem_aggregateRows h
  exact mem_sortedGroupTable.mp (mem_cityRows.mp (firstMaxRow_mem hc)).1

theorem mem_of_mem_top_10_data_of {l : List CityCatRow} {r : CityCatRow}
    (h : r ∈ top_10_data_of l) : r ∈ l :=
  (List.mem_filter.mp h).1

theorem sortedGroupTable_pairwise (rows : List MergedRow) :
    (sortedGroupTable rows).Pairwise cityCountRel :=
  List.sorted_insertionSort cityCountRel _

theorem aggregateRows_pairwise (rows : List MergedRow) :
    (aggregateRows rows).Pairwise fun a b => b.total_orders ≤ a.total_orders :=
  List.sorted_insertionSort countDescRel _

theorem map_customer_city_filterMap (f : Nat → Option CityCatRow)
    (hf : ∀ c r, f c = some r → r.customer_city = c) (l : List Nat) :
    (l.filterMap f).map CityCatRow.customer_city
      = l.filter fun c => (f c).isSome := by
  induction l with
  | nil => rfl
  | cons a l ih =>
    rw [List.filterMap_cons, List.filter_cons]
    cases hfa : f a with
    | none => simpa [hfa] using ih
    | some r =>
      rw [List.map_cons, ih, hf a r hfa]
      simp [hfa]

theorem selectedRows_cities_nodup (rows : List MergedRow) :
    ((selectedRows rows).map CityCatRow.customer_city).Nodup := by
  rw [selectedRows, map_customer_city_filterMap]
  · exact (nodup_dedupFirst _).filter _
  · intro c r h
    exact (mem_cityRows.mp (firstMaxRow_mem h)).2

theorem aggregateRows_cities_nodup (rows : List MergedRow) :
    ((aggregateRows rows).map CityCatRow.customer_city).Nodup := by
  have hperm :=
    (List.perm_insertionSort countDescRel (selectedRows rows)).map
      CityCatRow.customer_city
  exact hperm.nodup_iff.mpr (selectedRows_cities_nodup rows)

/-! Merge decomposition lemmas -/

theorem leftMerge_append_left {α β : Type} (l1 l2 : List α) (r : List β)
    (m : α → β → Bool) :
    leftMerge (l1 ++ l2) r m = leftMerge l1 r m ++ leftMerge l2 r m := by
  rw [leftMerge, leftMerge, leftMerge, List.flatMap_append]

theorem merged_df_append (oi1 oi2 : List OrderItem) (products : List Product)
    (filtered_orders : List Order) (customers : List Customer)
    (translation : List Translation) :
    merged_df (oi1 ++ oi2) products filtered_orders customers translation
      = merged_df oi1 products filtered_orders customers translation
        ++ merged_df oi2 products filtered_orders customers translation := by
  simp only [merged_df, leftMerge_append_left, List.map_append]

theorem mem_leftMerge {α β : Type} {l : List α} {r : List β}
    {m : α → β → Bool} {x : α × Option β} (hx : x ∈ leftMerge l r m) :
    x.1 ∈ l ∧ ∀ b, x.2 = some b → b ∈ r ∧ m x.1 b = true := by
  rw [leftMerge, List.mem_flatMap] at hx
  obtain ⟨a, ha, hxa⟩ := hx
  revert hxa
  cases hf : r.filter (m a) with
  | nil =>
    intro hxa
    rw [List.mem_singleton] at hxa
    subst hxa
    exact ⟨ha, fun b hb => by cases hb⟩
  | cons b0 bs =>
    intro hxa
    rw [List.mem_map] at hxa
    obtain ⟨b, hb, rfl⟩ := hxa
    have hbf : b ∈ r.filter (m a) := hf ▸ hb
    have hmf := List.mem_filter.mp hbf
    refine ⟨ha, fun b2 hb2 => ?_⟩
    have hbb : b = b2 := by simpa using hb2
    subst hbb
    exact hmf

theorem mem_merged_df {orders_items : List OrderItem}
    {products : List Product} {filtered_orders : List Order}
    {customers : List Customer} {translation : List Translation}
    {row : MergedRow}
    (hrow : row ∈ merged_df orders_items products filtered_orders customers
      translation) :
    ∃ i ∈ orders_items, ∃ (op : Option Product) (oo : Option Order)
      (oc : Option Customer) (ot : Option Translation),
      row = ⟨i.order_id, oc.map Customer.customer_city,
        ot.map Translation.product_category_name_english⟩ ∧
      (∀ p, op = some p → p ∈ products ∧ i.product_id = p.product_id) ∧
      (∀ o, oo = some o → o ∈ filtered_orders ∧ i.order_id = o.order_id) ∧
      (∀ c, oc = some c → c ∈ customers ∧
        ∃ o, oo = some o ∧ o.customer_id = c.customer_id) ∧
      (∀ t, ot = some t → t ∈ translation ∧ ∃ p, op = some p ∧
        p.product_category_name = some t.product_category_name) := by
  simp only [merged_df] at hrow
  obtain ⟨x4, hx4, hproj⟩ := List.mem_map.mp hrow
  obtain ⟨hx3, ht⟩ := mem_leftMerge hx4
  obtain ⟨hx2, hc⟩ := mem_leftMerge hx3
  obtain ⟨hx1, ho⟩ := mem_leftMerge hx2
  obtain ⟨hi, hp⟩ := mem_leftMerge hx1
  refine ⟨x4.1.1.1.1, hi, x4.1.1.1.2, x4.1.1.2, x4.1.2, x4.2,
    hproj.symm, ?_, ?_, ?_, ?_⟩
  · intro p hp2
    have h := hp p hp2
    exact ⟨h.1, by simpa using h.2⟩
  · intro o ho2
    have h := ho o ho2
    exact ⟨h.1, by simpa using h.2⟩
  · intro c hc2
    have h := hc c hc2
    refine ⟨h.1, ?_⟩
    have h2 := h.2
    cases hoo : x4.1.1.2 with
    | none => rw [hoo] at h2; cases h2
    | some o =>
      rw [hoo] at h2
      exact ⟨o, rfl, by simpa using h2⟩
  · intro t ht2
    have h := ht t ht2
    refine ⟨h.1, ?_⟩
    have h2 := h.2
    cases hop : x4.1.1.1.2 with
    | none => rw [hop] at h2; simp at h2
    | some p =>
      rw [hop] at h2
      cases hcat : p.product_category_name with
      | none => rw [Option.some_bind, hcat] at h2; simp at h2
      | some n =>
        rw [Option.some_bind, hcat] at h2
        have hn : n = t.product_category_name := by simpa using h2
        exact ⟨p, rfl, by rw [hcat, hn]⟩

/-! Null rows contribute nothing to the aggregation -/

theorem observedPairs_append (r1 r2 : List MergedRow) :
    observedPairs (r1 ++ r2) = observedPairs r1 ++ observedPairs r2 := by
  rw [observedPairs, observedPairs, observedPairs, List.filterMap_append]

theorem countPair_append (r1 r2 : List MergedRow) (c e : Nat) :
    countPair (r1 ++ r2) c e = countPair r1 c e + countPair r2 c e := by
  rw [countPair, countPair, countPair, List.filter_append, List.length_append]

theorem observedPairs_eq_nil_of_null (r1 : List MergedRow)
    (h : ∀ r ∈ r1, r.customer_city = none ∨
      r.product_category_name_english = none) :
    observedPairs r1 = [] := by
  rw [observedPairs, List.filterMap_eq_nil_iff]
  intro r hr
  rcases h r hr with h1 | h1
  · simp [h1]
  · cases hcity : r.customer_city <;> simp [h1, hcity]

theorem countPair_eq_zero_of_null (r1 : List MergedRow)
    (h : ∀ r ∈ r1, r.customer_city = none ∨
      r.product_category_name_english = none) (c e : Nat) :
    countPair r1 c e = 0 := by
  rw [countPair, List.length_eq_zero, List.filter_eq_nil_iff]
  intro r hr
  rcases h r hr with h1 | h1 <;> simp [h1]

theorem groupedTable_append_null (r1 r2 : List MergedRow)
    (h : ∀ r ∈ r1, r.customer_city = none ∨
      r.product_category_name_english = none) :
    groupedTable (r1 ++ r2) = groupedTable r2 := by
  have hobs : observedPairs (r1 ++ r2) = observedPairs r2 := by
    rw [observedPairs_append, observedPairs_eq_nil_of_null r1 h,
      List.nil_append]
  have hcount : ∀ c e, countPair (r1 ++ r2) c e = countPair r2 c e := by
    intro c e
    rw [countPair_append, countPair_eq_zero_of_null r1 h, Nat.zero_add]
  rw [groupedTable, groupedTable, groupKeys, groupKeys, hobs]
  simp only [hcount]

theorem aggregateRows_append_null (r1 r2 : List MergedRow)
    (h : ∀ r ∈ r1, r.customer_city = none ∨
      r.product_category_name_english = none) :
    aggregateRows (r1 ++ r2) = aggregateRows r2 := by
  simp only [aggregateRows, selectedRows, sortedGroupTable,
    groupedTable_append_null r1 r2 h]

theorem merged_df_singleton_city_none (i : OrderItem)
    (products : List Product) (filtered_orders : List Order)
    (customers : List Customer) (translation : List Translation)
    (h : ∀ o ∈ filtered_orders, o.order_id = i.order_id →
      ∀ c ∈ customers, o.customer_id ≠ c.customer_id) :
    ∀ row ∈ merged_df [i] products filtered_orders customers translation,
      row.customer_city = none := by
  intro row hrow
  obtain ⟨i2, hi2, op, oo, oc, ot, hroweq, hp, ho, hc, ht⟩ :=
    mem_merged_df hrow
  have hi : i2 = i := by simpa using hi2
  subst hi
  subst hroweq
  cases hoc : oc with
  | none => simp [hoc]
  | some c =>
    obtain ⟨hcmem, o, hoo, hocid⟩ := hc c hoc
    obtain ⟨homem, hoid⟩ := ho o hoo
    exact absurd hocid (h o homem hoid.symm c hcmem)

theorem merged_df_singleton_english_none (i : OrderItem)
    (products : List Product) (filtered_orders : List Order)
    (customers : List Customer) (translation : List Translation)
    (h : ∀ p ∈ products, p.product_id = i.product_id →
      ∀ t ∈ translation,
        p.product_category_name ≠ some t.product_category_name) :
    ∀ row ∈ merged_df [i] products filtered_orders customers translation,
      row.product_category_name_english = none := by
  intro row hrow
  obtain ⟨i2, hi2, op, oo, oc, ot, hroweq, hp, ho, hc, ht⟩ :=
    mem_merged_df hrow
  have hi : i2 = i := by simpa using hi2
  subst hi
  subst hroweq
  cases hot : ot with
  | none => simp [hot]
  | some t =>
    obtain ⟨htmem, p, hop, hpcat⟩ := ht t hot
    obtain ⟨hpmem, hpid⟩ := hp p hop
    exact absurd hpcat (h p hpmem hpid.symm t htmem)

/-! Unique-key merges degenerate to lookups -/

theorem filter_const_false {α : Type} (l : List α) :
    (l.filter fun _ => false) = [] := by
  rw [List.filter_eq_nil_iff]
  intro a _
  simp

theorem length_filter_le_one {α κ : Type} (key : α → κ) (v : κ)
    (l : List α) (hnd : (l.map key).Nodup) (p : α → Bool)
    (hp : ∀ a, p a = true → key a = v) : (l.filter p).length ≤ 1 := by
  induction l with
  | nil => simp
  | cons a l ih =>
    rw [List.map_cons, List.nodup_cons] at hnd
    rw [List.filter_cons]
    split
    · rename_i hpa
      have hnil : l.filter p = [] := by
        rw [List.filter_eq_nil_iff]
        intro b hb hpb
        have hmem : key b ∈ l.map key := List.mem_map_of_mem key hb
        rw [← (hp a hpa).trans (hp b hpb).symm] at hmem
        exact hnd.1 hmem
      rw [hnil]
      simp
    · exact ih hnd.2

theorem filterProducts_len_le_one (products : List Product)
    (h1 : (products.map Product.product_id).Nodup) (n : Nat) :
    (products.filter fun p => n == p.product_id).length ≤ 1 :=
  length_filter_le_one Product.product_id n products h1 _
    (fun p hp => by simp at hp; omega)

theorem filterOrders_len_le_one (filtered_orders : List Order)
    (h2 : (filtered_orders.map Order.order_id).Nodup) (n : Nat) :
    (filtered_orders.filter fun o => n == o.order_id).length ≤ 1 :=
  length_filter_le_one Order.order_id n filtered_orders h2 _
    (fun o ho => by simp at ho; omega)

theorem filterCustomers_len_le_one (customers : List Customer)
    (h3 : (customers.map Customer.customer_id).Nodup) (oo : Option Order) :
    (customers.filter fun c =>
      match oo with
      | some o => o.customer_id == c.customer_id
      | none => false).length ≤ 1 := by
  cases oo with
  | none => simp [filter_const_false]
  | some o =>
    exact length_filter_le_one Customer.customer_id o.customer_id customers
      h3 _ (fun c hc => by simp at hc; omega)

theorem filterTranslation_len_le_one (translation : List Translation)
    (h4 : (translation.map Translation.product_category_name).Nodup)
    (on2 : Option Nat) :
    (translation.filter fun t =>
      match on2 with
      | some n => n == t.product_category_name
      | none => false).length ≤ 1 := by
  cases on2 with
  | none => simp [filter_const_false]
  | some n =>
    exact length_filter_le_one Translation.product_category_name n
      translation h4 _ (fun t ht => by simp at ht; omega)

theorem leftMerge_singleton {α β : Type} (a : α) (r : List β)
    (m : α → β → Bool) (h : (r.filter (m a)).length ≤ 1) :
    leftMerge [a] r m = [(a, (r.filter (m a)).head?)] := by
  rw [leftMerge]
  cases hf : r.filter (m a) with
  | nil => simp [hf]
  | cons b bs =>
    have hlen : bs.length = 0 := by
      rw [hf, List.length_cons] at h
      omega
    have hbs := List.length_eq_zero.mp hlen
    subst hbs
    simp [hf]

theorem merged_df_singleton_eq (i : OrderItem) (products : List Product)
    (filtered_orders : List Order) (customers : List Customer)
    (translation : List Translation)
    (h1 : (products.map Product.product_id).Nodup)
    (h2 : (filtered_orders.map Order.order_id).Nodup)
    (h3 : (customers.map Customer.customer_id).Nodup)
    (h4 : (translation.map Translation.product_category_name).Nodup) :
    merged_df [i] products filtered_orders customers translation
      = [⟨i.order_id, itemCity filtered_orders customers i,
          itemCategory products translation i⟩] := by
  simp only [merged_df]
  rw [leftMerge_singleton _ _ _ (filterProducts_len_le_one products h1
    i.product_id)]
  rw [leftMerge_singleton _ _ _ (filterOrders_len_le_one filtered_orders h2 _)]
  rw [leftMerge_singleton _ _ _ (filterCustomers_len_le_one customers h3 _)]
  rw [leftMerge_singleton _ _ _ (filterTranslation_len_le_one translation h4 _)]
  simp only [List.map_cons, List.map_nil]
  congr 1
  congr 1
  · cases ho : (filtered_orders.filter fun o => i.order_id == o.order_id).head?
      with
    | none => simp [itemCity, ho, filter_const_false]
    | some o => simp [itemCity, ho]
  · cases hpq : (products.filter fun p => i.product_id == p.product_id).head?
      with
    | none => simp [itemCategory, hpq, filter_const_false]
    | some p =>
      cases hcat : p.product_category_name with
      | none => simp [itemCategory, hpq, hcat, filter_const_false]
      | some n => simp [itemCategory, hpq, hcat]

theorem merged_df_eq_map (orders_items : List OrderItem)
    (products : List Product) (filtered_orders : List Order)
    (customers : List Customer) (translation : List Translation)
    (h1 : (products.map Product.product_id).Nodup)
    (h2 : (filtered_orders.map Order.order_id).Nodup)
    (h3 : (customers.map Customer.customer_id).Nodup)
    (h4 : (translation.map Translation.product_category_name).Nodup) :
    merged_df orders_items products filtered_orders customers translation
      = orders_items.map fun i =>
          ⟨i.order_id, itemCity filtered_orders customers i,
            itemCategory products translation i⟩ := by
  induction orders_items with
  | nil => rfl
  | cons i oi ih =>
    rw [show (i :: oi) = [i] ++ oi from rfl, merged_df_append,
      merged_df_singleton_eq i products filtered_orders customers translation
        h1 h2 h3 h4, ih]
    simp

/-! The claims -/

/-- C1:  For every city appearing in the aggregator's output, the
reported category is one that attains the maximum per-category count among
all categories observed for that city in the filtered input. -/
theorem output_category_attains_max (orders_items : List OrderItem)
    (products : List Product) (filtered_orders : List Order)
    (customers : List Customer) (translation : List Translation)
    (r : CityCatRow)
    (hr : r ∈ top_10_data orders_items products filtered_orders customers
      translation) :
    ∃ e, r.product_category_name_english = some e ∧
      r.total_orders = countPair
        (merged_df orders_items products filtered_orders customers translation)
        r.customer_city e ∧
      ∀ e2, countPair
        (merged_df orders_items products filtered_orders customers translation)
        r.customer_city e2 ≤ r.total_orders := by
  have hagg : r ∈ aggregateRows
      (merged_df orders_items products filtered_orders customers translation) :=
    mem_of_mem_top_10_data_of hr
  obtain ⟨c, hc⟩ := exists_city_of_mem_aggregateRows hagg
  have hmem := mem_cityRows.mp (firstMaxRow_mem hc)
  obtain ⟨c2, e, hobs, hre⟩ :=
    mem_groupedTable.mp (mem_sortedGroupTable.mp hmem.1)
  have hcity := hmem.2
  subst hre
  refine ⟨e, rfl, rfl, ?_⟩
  intro e2
  set rows :=
    merged_df orders_items products filtered_orders customers translation
  rcases Nat.eq_zero_or_pos (countPair rows c2 e2) with h0 | hpos
  · exact h0 ▸ Nat.zero_le _
  · have hobs2 := (countPair_pos rows c2 e2).mp hpos
    have hrow2 : (⟨c2, some e2, countPair rows c2 e2⟩ : CityCatRow) ∈
        cityRows (sortedGroupTable rows) c := by
      rw [mem_cityRows]
      exact ⟨mem_sortedGroupTable.mpr
        (mem_groupedTable.mpr ⟨c2, e2, hobs2, rfl⟩), hcity⟩
    exact firstMaxRow_max hc _ hrow2

/-- Witness for C1 at the spec's example scenario. -/
theorem output_category_attains_max_witness :
    ((⟨30, some 20, 3⟩ : CityCatRow) ∈ top_10_data exOrderItems exProducts
      exFilteredOrders exCustomers exTranslation) ∧
    ∃ e, (⟨30, some 20, 3⟩ : CityCatRow).product_category_name_english = some e ∧
      (⟨30, some 20, 3⟩ : CityCatRow).total_orders = countPair
        (merged_df exOrderItems exProducts exFilteredOrders exCustomers
          exTranslation) 30 e ∧
      ∀ e2, countPair (merged_df exOrderItems exProducts exFilteredOrders
        exCustomers exTranslation) 30 e2 ≤
          (⟨30, some 20, 3⟩ : CityCatRow).total_orders :=
  ⟨by decide, output_category_attains_max exOrderItems exProducts
    exFilteredOrders exCustomers exTranslation ⟨30, some 20, 3⟩ (by decide)⟩

/-- C2:  For any input, the aggregator's output has at most 10 records
and at most one record per distinct city. -/
theorem output_at_most_ten_and_cities_nodup (orders_items : List OrderItem)
    (products : List Product) (filtered_orders : List Order)
    (customers : List Customer) (translation : List Translation) :
    (top_10_data orders_items products filtered_orders customers
      translation).length ≤ 10 ∧
    ((top_10_data orders_items products filtered_orders customers
      translation).map CityCatRow.customer_city).Nodup := by
  have hnd : ((top_category_per_city orders_items products filtered_orders
      customers translation).map CityCatRow.customer_city).Nodup :=
    aggregateRows_cities_nodup _
  have hsub : List.Sublist
      ((top_10_data orders_items products filtered_orders customers
        translation).map CityCatRow.customer_city)
      ((top_category_per_city orders_items products filtered_orders
        customers translation).map CityCatRow.customer_city) :=
    (List.filter_sublist _).map _
  have hnd10 := hnd.sublist hsub
  refine ⟨?_, hnd10⟩
  have hsubset : (top_10_data orders_items products filtered_orders customers
      translation).map CityCatRow.customer_city ⊆
        top_10_cities (top_category_per_city orders_items products
          filtered_orders customers translation) := by
    intro x hx
    obtain ⟨r, hr, rfl⟩ := List.mem_map.mp hx
    have hmem := List.mem_filter.mp hr
    simpa using hmem.2
  have hlen := (List.subperm_of_subset hnd10 hsubset).length_le
  rw [List.length_map] at hlen
  refine Nat.le_trans hlen ?_
  rw [top_10_cities]
  exact Nat.le_trans (List.length_take_le _ _) (Nat.le_refl _)

/-- C3:  Across the aggregator's output sequence, the `total_orders`
values are non-increasing. -/
theorem output_total_orders_nonincreasing (orders_items : List OrderItem)
    (products : List Product) (filtered_orders : List Order)
    (customers : List Customer) (translation : List Translation) :
    (top_10_data orders_items products filtered_orders customers
      translation).Pairwise fun a b => b.total_orders ≤ a.total_orders := by
  have h := aggregateRows_pairwise
    (merged_df orders_items products filtered_orders customers translation)
  exact h.filter _

/-- C7:  Within each city, the selected record (`idxmax` of the city's
group) is the city's first row in the table sorted by (city ascending,
`total_orders` descending): ties for the maximum break in favor of the
row that sorts first. -/
theorem tie_break_selects_first_sorted_row (orders_items : List OrderItem)
    (products : List Product) (filtered_orders : List Order)
    (customers : List Customer) (translation : List Translation) (c : Nat) :
    firstMaxRow (cityRows (sortedGroupTable (merged_df orders_items products
      filtered_orders customers translation)) c)
      = (cityRows (sortedGroupTable (merged_df orders_items products
        filtered_orders customers translation)) c).head? := by
  apply firstMaxRow_eq_head
  have hp := sortedGroupTable_pairwise
    (merged_df orders_items products filtered_orders customers translation)
  have h1 := List.Pairwise.and_mem.mp (hp.filter
    (fun r => r.customer_city == c))
  refine h1.imp ?_
  rintro a b ⟨ha, hb, hr⟩
  have hac : a.customer_city = c := (mem_cityRows.mp ha).2
  have hbc : b.customer_city = c := (mem_cityRows.mp hb).2
  unfold cityCountRel at hr
  omega

/-- C9:  The average-orders-per-city metric is guarded: a zero
denominator yields zero rather than an error; a nonzero denominator yields
the quotient. -/
theorem avg_orders_per_city_guarded (filtered_orders : List Order)
    (customers : List Customer) :
    (total_cities filtered_orders customers = 0 →
      avg_orders_per_city filtered_orders customers = 0) ∧
    (total_cities filtered_orders customers ≠ 0 →
      avg_orders_per_city filtered_orders customers =
        (total_orders_metric filtered_orders : ℚ) /
          (total_cities filtered_orders customers : ℚ)) := by
  constructor
  · intro h
    rw [avg_orders_per_city, if_neg]
    omega
  · intro h
    rw [avg_orders_per_city, if_pos]
    exact Nat.pos_of_ne_zero h

/-- Witness for C9: with no customers there are zero distinct cities and
the metric is 0; with the example tables it is 2 orders / 1 city = 2. -/
theorem avg_orders_per_city_guarded_witness :
    avg_orders_per_city exFilteredOrders [] = 0 ∧
    avg_orders_per_city exFilteredOrders exCustomers = 2 := by
  constructor
  · exact (avg_orders_per_city_guarded exFilteredOrders []).1 (by decide)
  · rw [(avg_orders_per_city_guarded exFilteredOrders exCustomers).2
      (by decide)]
    norm_num [show total_orders_metric exFilteredOrders = 2 from rfl,
      show total_cities exFilteredOrders exCustomers = 1 from rfl]

/-- C10:  Every record of the aggregator's output carries a defined
(non-null) category label and a `total_orders` count of at least 1. -/
theorem output_category_defined_and_count_positive
    (orders_items : List OrderItem) (products : List Product)
    (filtered_orders : List Order) (customers : List Customer)
    (translation : List Translation) (r : CityCatRow)
    (hr : r ∈ top_10_data orders_items products filtered_orders customers
      translation) :
    r.product_category_name_english ≠ none ∧ 1 ≤ r.total_orders := by
  have hagg : r ∈ aggregateRows
      (merged_df orders_items products filtered_orders customers translation) :=
    mem_of_mem_top_10_data_of hr
  obtain ⟨c, e, hobs, hre⟩ :=
    mem_groupedTable.mp (mem_groupedTable_of_mem_aggregateRows hagg)
  subst hre
  exact ⟨by simp, (countPair_pos _ c e).mpr hobs⟩

/-- Witness for C10 at the spec's example scenario. -/
theorem output_category_defined_and_count_positive_witness :
    ((⟨30, some 20, 3⟩ : CityCatRow) ∈ top_10_data exOrderItems exProducts
      exFilteredOrders exCustomers exTranslation) ∧
    (⟨30, some 20, 3⟩ : CityCatRow).product_category_name_english ≠ none ∧
    1 ≤ (⟨30, some 20, 3⟩ : CityCatRow).total_orders :=
  ⟨by decide, output_category_defined_and_count_positive exOrderItems
    exProducts exFilteredOrders exCustomers exTranslation ⟨30, some 20, 3⟩
    (by decide)⟩

/-- C5 counterexample:  A line item whose category joins fail but
whose city join succeeds produces a merged row with the null category
label, and that row is then dropped by the group-by: the aggregation
counts it under no label at all (the grouped table and the output are
empty), contradicting the claim that it is "still counted ... under an
undefined/null category label". -/
theorem null_category_item_not_counted :
    merged_df exNullCatItems exNullCatProducts exFilteredOrders exCustomers
      exTranslation = [⟨1, some 30, none⟩] ∧
    groupedTable (merged_df exNullCatItems exNullCatProducts exFilteredOrders
      exCustomers exTranslation) = [] ∧
    top_category_per_city exNullCatItems exNullCatProducts exFilteredOrders
      exCustomers exTranslation = [] := by
  decide

/-- C5 amended:  A line item whose product has a missing/unmapped
category yields a null category label and is then dropped by the group-by:
it contributes to no (city, category) count and leaves the aggregation
output unchanged; it causes no failure. -/
theorem unmapped_category_item_dropped (i : OrderItem)
    (orders_items : List OrderItem) (products : List Product)
    (filtered_orders : List Order) (customers : List Customer)
    (translation : List Translation)
    (h : ∀ p ∈ products, p.product_id = i.product_id →
      ∀ t ∈ translation,
        p.product_category_name ≠ some t.product_category_name) :
    top_category_per_city (i :: orders_items) products filtered_orders
      customers translation
      = top_category_per_city orders_items products filtered_orders customers
        translation ∧
    ∀ c e, countPair (merged_df (i :: orders_items) products filtered_orders
      customers translation) c e
      = countPair (merged_df orders_items products filtered_orders customers
        translation) c e := by
  have hdec : merged_df (i :: orders_items) products filtered_orders
      customers translation
      = merged_df [i] products filtered_orders customers translation
        ++ merged_df orders_items products filtered_orders customers
          translation := by
    rw [show (i :: orders_items) = [i] ++ orders_items from rfl,
      merged_df_append]
  have hnull : ∀ row ∈ merged_df [i] products filtered_orders customers
      translation, row.customer_city = none ∨
        row.product_category_name_english = none :=
    fun row hrow => Or.inr (merged_df_singleton_english_none i products
      filtered_orders customers translation h row hrow)
  constructor
  · rw [top_category_per_city, top_category_per_city, hdec,
      aggregateRows_append_null _ _ hnull]
  · intro c e
    rw [hdec, countPair_append, countPair_eq_zero_of_null _ hnull,
      Nat.zero_add]

/-- Witness for the amended C5: the null-category line item leaves the
(empty) aggregation unchanged. -/
theorem unmapped_category_item_dropped_witness :
    top_category_per_city ((⟨1, 1⟩ : OrderItem) :: []) exNullCatProducts
      exFilteredOrders exCustomers exTranslation
      = top_category_per_city [] exNullCatProducts exFilteredOrders
        exCustomers exTranslation :=
  (unmapped_category_item_dropped ⟨1, 1⟩ [] exNullCatProducts
    exFilteredOrders exCustomers exTranslation (by decide)).1

/-- C6:  A line item whose order is not in the filtered order set, or
whose order's customer cannot be resolved to a city, contributes to no
(city, category) count and leaves the aggregation output unchanged. -/
theorem unresolvable_city_item_contributes_nothing (i : OrderItem)
    (orders_items : List OrderItem) (products : List Product)
    (filtered_orders : List Order) (customers : List Customer)
    (translation : List Translation)
    (h : ∀ o ∈ filtered_orders, o.order_id = i.order_id →
      ∀ c ∈ customers, o.customer_id ≠ c.customer_id) :
    top_category_per_city (i :: orders_items) products filtered_orders
      customers translation
      = top_category_per_city orders_items products filtered_orders customers
        translation ∧
    ∀ c e, countPair (merged_df (i :: orders_items) products filtered_orders
      customers translation) c e
      = countPair (merged_df orders_items products filtered_orders customers
        translation) c e := by
  have hdec : merged_df (i :: orders_items) products filtered_orders
      customers translation
      = merged_df [i] products filtered_orders customers translation
        ++ merged_df orders_items products filtered_orders customers
          translation := by
    rw [show (i :: orders_items) = [i] ++ orders_items from rfl,
      merged_df_append]
  have hnull : ∀ row ∈ merged_df [i] products filtered_orders customers
      translation, row.customer_city = none ∨
        row.product_category_name_english = none :=
    fun row hrow => Or.inl (merged_df_singleton_city_none i products
      filtered_orders customers translation h row hrow)
  constructor
  · rw [top_category_per_city, top_category_per_city, hdec,
      aggregateRows_append_null _ _ hnull]
  · intro c e
    rw [hdec, countPair_append, countPair_eq_zero_of_null _ hnull,
      Nat.zero_add]

/-- Witness for C6: adding a line item of an order outside the filtered
set (order 9) leaves the spec example's aggregation output unchanged. -/
theorem unresolvable_city_item_contributes_nothing_witness :
    top_category_per_city (exUnfilteredItem :: exOrderItems) exProducts
      exFilteredOrders exCustomers exTranslation
      = top_category_per_city exOrderItems exProducts exFilteredOrders
        exCustomers exTranslation :=
  (unresolvable_city_item_contributes_nothing exUnfilteredItem exOrderItems
    exProducts exFilteredOrders exCustomers exTranslation (by decide)).1

/-- C8:  A city none of whose line items resolves to any category is
excluded from the aggregator's output entirely: no output record carries
that city. -/
theorem city_without_categories_excluded (orders_items : List OrderItem)
    (products : List Product) (filtered_orders : List Order)
    (customers : List Customer) (translation : List Translation) (c : Nat)
    (h : ∀ row ∈ merged_df orders_items products filtered_orders customers
      translation, row.customer_city = some c →
        row.product_category_name_english = none) :
    ∀ r ∈ top_10_data orders_items products filtered_orders customers
      translation, r.customer_city ≠ c := by
  intro r hr hrc
  have hagg : r ∈ aggregateRows
      (merged_df orders_items products filtered_orders customers translation) :=
    mem_of_mem_top_10_data_of hr
  obtain ⟨c2, e, hobs, hre⟩ :=
    mem_groupedTable.mp (mem_groupedTable_of_mem_aggregateRows hagg)
  obtain ⟨row, hrow, hcity, heng⟩ := (mem_observedPairs _ c2 e).mp hobs
  subst hre
  have hc2 : c2 = c := hrc
  subst hc2
  rw [h row hrow hcity] at heng
  cases heng

/-- Witness for C8: in `ex8`, city 30 only has the untranslatable category
5, so the output record (which exists, for city 31) is not for city 30. -/
theorem city_without_categories_excluded_witness :
    (⟨31, some 20, 1⟩ : CityCatRow).customer_city ≠ 30 :=
  city_without_categories_excluded ex8Items ex8Products ex8Orders
    ex8Customers exTranslation 30 (by decide) ⟨31, some 20, 1⟩ (by decide)

/-- C4:  Under the data model's key-uniqueness invariants, the
per-(city, category) count totals order-line occurrences, not distinct
orders: it equals the number of line-item rows resolving to that pair, so
multiple items of the same order each contribute one. -/
theorem count_is_line_item_occurrences (orders_items : List OrderItem)
    (products : List Product) (filtered_orders : List Order)
    (customers : List Customer) (translation : List Translation)
    (h1 : (products.map Product.product_id).Nodup)
    (h2 : (filtered_orders.map Order.order_id).Nodup)
    (h3 : (customers.map Customer.customer_id).Nodup)
    (h4 : (translation.map Translation.product_category_name).Nodup)
    (c e : Nat) :
    countPair (merged_df orders_items products filtered_orders customers
      translation) c e
      = (orders_items.filter fun i =>
          itemCity filtered_orders customers i == some c &&
            itemCategory products translation i == some e).length := by
  rw [countPair, merged_df_eq_map orders_items products filtered_orders
    customers translation h1 h2 h3 h4, List.filter_map, List.length_map]
  rfl

/-- Witness for C4 at the spec's example scenario: the two line items of
order 1 and the one of order 2 all resolve to (springfield, toys), giving
a count of 3. -/
theorem count_is_line_item_occurrences_witness :
    countPair (merged_df exOrderItems exProducts exFilteredOrders exCustomers
      exTranslation) 30 20
      = (exOrderItems.filter fun i =>
          itemCity exFilteredOrders exCustomers i == some 30 &&
            itemCategory exProducts exTranslation i == some 20).length ∧
    (exOrderItems.filter fun i =>
      itemCity exFilteredOrders exCustomers i == some 30 &&
        itemCategory exProducts exTranslation i == some 20).length = 3 :=
  ⟨count_is_line_item_occurrences exOrderItems exProducts exFilteredOrders
    exCustomers exTranslation (by decide) (by decide) (by decide) (by decide)
    30 20, by decide⟩

end Dashboard
